import Mathlib

/-!
Verification development for the chatwoot-adapter bridge.

The development shallowly embeds the two source classes:

* `ChatwootClient` (src/Services/class/chatwoot.js): remote CRM client whose
  HTTP requests are serialized through a one-at-a-time queue.  The remote
  Chatwoot instance is modelled as an explicit state (`CWState`): contacts,
  per-contact conversation payloads, the process-local lock map, and logs of
  the mutating calls (conversation creations, message posts).  The remote is
  modelled as consistent: a created contact or conversation is visible to the
  lookups that execute after it.
* `BotWrapper` (src/Services/class/botWrapper.js): event orchestration, the
  outbound feature-gate check, and the webhook endpoint.

Fallible remote calls return `Except CWError`; `sendNotes` additionally
returns `Option` where `none` denotes divergence: the single-caller
denotation of the source's unbounded `while (locks[phone]) await sleep`
polling loop, which never exits when no concurrent task releases the lock.
Pure delays (`setTimeout` sleeps) are dropped: they touch no state.
-/

namespace ChatwootAdapter

/-- Error codes for the distinct throw sites of the source (the JS code
throws `Error` values distinguished only by message text). -/
inductive CWError
  | noConversationForInbox (inboxId : Nat)
  | setAttributesNoUser
  | createConversationFailed
  | remoteNotFound
  deriving DecidableEq, Repr

/-- A remote contact: id assigned by the CRM, display name, phone number as
stored (with leading `+`), and the custom-attribute map as an association
list. -/
structure Contact where
  id : Nat
  name : Option String
  phone_number : String
  custom_attributes : List (String × String)
  deriving DecidableEq, Repr

/-- One entry of a contact's conversation payload as read by
`getConversationID`: `data.payload[0]?.messages`, each message carrying an
`inbox_id` and a `conversation_id`. -/
structure MsgRec where
  inbox_id : Nat
  conversation_id : Nat
  deriving DecidableEq, Repr

/-- One conversation record of the payload returned by
`/contacts/{id}/conversations`. -/
structure ConvRec where
  messages : List MsgRec
  deriving DecidableEq, Repr

/-- The remote Chatwoot state together with the process-local lock map of
`ChatwootClient` and logs of the mutating remote calls. -/
structure CWState where
  contacts : List Contact
  conversations : List (Nat × List ConvRec)
  locks : List String
  nextContactId : Nat
  nextConvId : Nat
  createCalls : List (String × Nat)
  posted : List (Option Nat × String × String × Bool)
  deriving DecidableEq, Repr

/-- Client configuration (the transport fields URL / account id / token are
request plumbing and carry no model content; the inbox id is the one field
the control flow reads). -/
structure Config where
  inboxID : Nat
  deriving DecidableEq, Repr

/-- `createContact` formats the phone: prefix `+` unless already present
(`phoneNumber.startsWith("+")`, written as a first-character test). -/
def formatPhone (p : String) : String :=
  if p.data.head? = some '+' then p else "+" ++ p

/-- The remote contact search `/contacts/search?q=+phone`: first stored
contact whose phone number equals the query `+userPhone`. -/
def searchContact (st : CWState) (userPhone : String) : Option Contact :=
  st.contacts.find? (fun c => c.phone_number == "+" ++ userPhone)

/-- `getUserID`: search by phone; `payload[0].id`, or `false` when absent. -/
def getUserID (st : CWState) (userPhone : String) : Option Nat :=
  (searchContact st userPhone).map Contact.id

/-- `getAttributes`: search by phone; `false` when the contact is absent,
when it has no custom attributes, or when `funciones_del_bot` is falsy
(absent or the empty string); otherwise the attribute value as a string. -/
def getAttributes (st : CWState) (userPhone : String) : Option String :=
  match searchContact st userPhone with
  | none => none
  | some c =>
    match c.custom_attributes.lookup "funciones_del_bot" with
    | none => none
    | some v => if v = "" then none else some v

/-- Remote contact update `PUT /contacts/{id}`: set one custom attribute on
the first stored contact with the given id. -/
def setCustomAttribute (st : CWState) (uid : Nat) (field value : String) :
    CWState :=
  { st with
    contacts := st.contacts.map (fun c =>
      if c.id = uid then
        { c with custom_attributes :=
            (c.custom_attributes.filter (fun kv => kv.1 ≠ field))
              ++ [(field, value)] }
      else c) }

/-- `createContact`: `POST /contacts` with the formatted phone; the remote
assigns the next contact id; returns the new state and
`response.payload.contact.id`. -/
def createContact (st : CWState) (name : Option String) (phoneNumber : String) :
    CWState × Nat :=
  ({ st with
      contacts := st.contacts ++
        [{ id := st.nextContactId
           name := name
           phone_number := formatPhone phoneNumber
           custom_attributes := [] }]
      nextContactId := st.nextContactId + 1 },
   st.nextContactId)

/-- The conversation payload `/contacts/{uid}/conversations` for a contact. -/
def convPayload (st : CWState) (uid : Nat) : List ConvRec :=
  (st.conversations.lookup uid).getD []

/-- `getConversationID` (src/Services/class/chatwoot.js lines 128-139):
`conversations := data.payload[0]?.messages`; if missing or empty return
`false`; otherwise find a message with the configured inbox id and return
its `conversation_id`, throwing when none matches. -/
def getConversationID (inboxID : Nat) (st : CWState) (uid : Nat) :
    Except CWError (Option Nat) :=
  match (convPayload st uid).head? with
  | none => .ok none
  | some conv =>
    match conv.messages with
    | [] => .ok none
    | msgs =>
      match msgs.find? (fun c => c.inbox_id == inboxID) with
      | none => .error (.noConversationForInbox inboxID)
      | some c => .ok (some c.conversation_id)

/-- `createNewConversation`: `POST /conversations` with the source id and
contact id; the consistent remote makes the new conversation immediately
visible in the contact's payload, stamped with the configured inbox id; the
call is logged in `createCalls`. -/
def createNewConversation (cfg : Config) (st : CWState)
    (sourceID : String) (contactID : Nat) : CWState × Nat :=
  let newId := st.nextConvId
  let payload := convPayload st contactID
  ({ st with
      conversations :=
        (contactID, { messages := [{ inbox_id := cfg.inboxID
                                     conversation_id := newId }] } :: payload)
          :: st.conversations.filter (fun kv => kv.1 ≠ contactID)
      nextConvId := newId + 1
      createCalls := st.createCalls ++ [(sourceID, contactID)] },
   newId)

/-- `POST /conversations/{id}/messages` with a plain JSON body; the call is
logged.  The conversation id is `none` when the source posts with the falsy
`conversation_id` left by a failed re-lookup. -/
def postMessage (st : CWState) (conv : Option Nat)
    (content typeUser : String) (isPrivate : Bool) : CWState :=
  { st with posted := st.posted ++ [(conv, content, typeUser, isPrivate)] }

/-- The contact phase of `sendNotes` (src/Services/class/chatwoot.js lines
251-266): look up the contact by phone; when absent, create it, then read
the attributes back and, when `funciones_del_bot` is still falsy, run
`setAttributes(userPhone, "funciones_del_bot", "On")` — which itself looks
the contact up again and issues the `PUT`, failing when that lookup finds
nothing (the `PUT /contacts/false` the source would send is rejected by the
remote). -/
def ensureContact (st : CWState) (userPhone : String) (name : Option String) :
    CWState × Except CWError Nat :=
  match getUserID st userPhone with
  | some uid => (st, .ok uid)
  | none =>
    let created := createContact st name userPhone
    let st1 := created.1
    let newId := created.2
    match getAttributes st1 userPhone with
    | some _ => (st1, .ok newId)
    | none =>
      match getUserID st1 userPhone with
      | none => (st1, .error .setAttributesNoUser)
      | some tid =>
        (setCustomAttribute st1 tid "funciones_del_bot" "On", .ok newId)

/-- `sendNotes` (src/Services/class/chatwoot.js lines 250-295), one caller:
resolve or create the contact, look up the conversation; when absent, check
the per-phone lock — when held, the source polls in a loop that only a
concurrent task could exit, so the single-caller denotation is divergence
(`none`); when free, take the lock, create the conversation with the
constant source id `"someUniqueValue"`, clear the lock after the await
resolves (only on the success path: the source has no `try`/`finally`), and
post the message.  `createOk` is the remote outcome of the conversation
creation: `false` means the `POST /conversations` throws. -/
def sendNotes (cfg : Config) (st : CWState) (userPhone mensaje : String)
    (typeUser : String) (isPrivate : Bool) (name : Option String)
    (createOk : Bool) : Option (CWState × Except CWError Bool) :=
  match ensureContact st userPhone name with
  | (st1, .error e) => some (st1, .error e)
  | (st1, .ok uid) =>
    match getConversationID cfg.inboxID st1 uid with
    | .error e => some (st1, .error e)
    | .ok (some cid) =>
      some (postMessage st1 (some cid) mensaje typeUser isPrivate, .ok true)
    | .ok none =>
      if st1.locks.contains userPhone then
        none
      else
        let stL := { st1 with locks := userPhone :: st1.locks }
        if createOk then
          let created := createNewConversation cfg stL "someUniqueValue" uid
          let st3 := created.1
          let newId := created.2
          let st4 := { st3 with
                        locks := st3.locks.filter (fun q => q ≠ userPhone) }
          some (postMessage st4 (some newId) mensaje typeUser isPrivate,
                .ok true)
        else
          some (stL, .error .createConversationFailed)

/-- The per-file outcome of the attachment loop of
`sendMessageWithAttachments`: filenames appended to the form, URLs skipped
with a logged warning, and whether the message was submitted. -/
structure AttachResult where
  attachments : List String
  warnings : List String
  sent : Bool
  deriving DecidableEq, Repr

/-- `sendMessageWithAttachments` (src/Services/class/chatwoot.js lines
327-379): resolve contact and conversation, then for each URL download the
file (`download` gives the response content type) and infer the extension
with `mime.getExtension`; a resolvable file is appended to the form as
`Documento.<ext>`, an unresolvable one is skipped with a logged warning;
finally the multipart message is posted.  A falsy contact or conversation
id makes the remote reject the misaddressed request. -/
def sendMessageWithAttachments (cfg : Config) (st : CWState)
    (download : String → String) (mimeGetExtension : String → Option String)
    (userPhone : String) (mensaje : Option String) (fileUrls : List String)
    (typeUser : String) (isPrivate : Bool) :
    Except CWError (CWState × AttachResult) :=
  match getUserID st userPhone with
  | none => .error .remoteNotFound
  | some uid =>
    match getConversationID cfg.inboxID st uid with
    | .error e => .error e
    | .ok convId =>
      let looped := fileUrls.foldl
        (fun (acc : List String × List String) (url : String) =>
          match mimeGetExtension (download url) with
          | some ext => (acc.1 ++ ["Documento." ++ ext], acc.2)
          | none => (acc.1, acc.2 ++ [url]))
        ([], [])
      match convId with
      | none => .error .remoteNotFound
      | some cid =>
        .ok (postMessage st (some cid) (mensaje.getD "") typeUser isPrivate,
             { attachments := looped.1, warnings := looped.2, sent := true })

/-- A relay call issued by the BotWrapper orchestration: either
`sendMessageWithAttachments` or `sendNotes`, with the arguments the source
passes. -/
inductive RelayAction
  | withAttachments (phone : String) (answer : Option String)
      (urls : List String) (typeUser : String) (isPrivate : Bool)
  | note (phone : String) (answer : String) (typeUser : String)
      (isPrivate : Bool)
  deriving DecidableEq, Repr

/-- Modelled from the spec: the dynamic blacklist of the bot runtime is an
external collaborator exposing add/remove/snapshot keyed by phone number;
it holds the set of phones suppressed from bot replies.
`removeFromBlacklist` removes a phone. -/
def removeFromBlacklist (bl : List String) (p : String) : List String :=
  bl.filter (fun q => q ≠ p)

/-- `processOutgoingMessage` (src/Services/class/botWrapper.js lines
156-186): read the remote attribute and the blacklist snapshot; when the
attribute is (strictly) `"On"` and the phone is in the snapshot, remove it
from the blacklist; then relay the reply — as an attachment message when
the context carries media, as a plain note otherwise.  The relay call's own
failure is caught and logged by the surrounding `try`; the returned
`RelayAction` records the call issued.  There is no branch for any other
attribute value: the blacklist is left unchanged and the relay still runs. -/
def processOutgoingMessage (st : CWState) (blacklist : List String)
    (numberOrId answer : String) (media : Option String) :
    List String × RelayAction :=
  let attrs := getAttributes st numberOrId
  let snapshot := blacklist
  let bl2 :=
    if attrs = some "On" then
      if snapshot.contains numberOrId then
        removeFromBlacklist snapshot numberOrId
      else snapshot
    else snapshot
  match media with
  | some url =>
    (bl2, .withAttachments numberOrId (some answer) [url] "outgoing" false)
  | none => (bl2, .note numberOrId answer "outgoing" false)

/-- An agent event re-emitted by the webhook endpoint. -/
structure AgentEvent where
  body : String
  deriving DecidableEq, Repr

/-- An HTTP response of the webhook server. -/
structure HttpResponse where
  status : Nat
  body : String
  deriving DecidableEq, Repr

/-- `handleAgentEvent` (src/Services/class/botWrapper.js lines 77-83):
re-emit the JSON body as an `agent_event` on the internal emitter; listener
failures are caught and logged. -/
def handleAgentEvent (events : List AgentEvent) (jsonBody : String) :
    List AgentEvent :=
  events ++ [{ body := jsonBody }]

/-- The `POST /webhook-endpoint` handler (src/Services/class/botWrapper.js
lines 193-203): fire `handleAgentEvent` without awaiting it and respond
`200` with the fixed acknowledgement body.  `downstream` is the outcome of
the downstream processing of the re-emitted event; the handler never reads
it. -/
def webhookEndpointHandler (events : List AgentEvent) (jsonBody : String)
    (_downstream : Except CWError Unit) :
    List AgentEvent × HttpResponse :=
  (handleAgentEvent events jsonBody,
   { status := 200, body := "Evento del agente recibido." })

/-!
## The ordered dispatch queue

Modelled from the spec: both classes instantiate `queue-promise` with
`concurrent: 1` and a fixed interval (src/Services/class/botWrapper.js
lines 13-16, src/Services/class/chatwoot.js lines 7-11); the library itself
is an external dependency, so its contract is taken from the spec: tasks
run one at a time in enqueue order, a task's rejection is caught and logged
and later tasks still run, no task is retried.  The model is a small
scheduler: a FIFO buffer of pending tasks, at most one in-flight task
(`running : Option`), and a trace of completed task outcomes.  One `qstep`
either starts the next pending task or finishes the in-flight one.
-/

/-- View of `Except` as a sum, used to decide equality of task results. -/
def exceptToSum {ε α : Type} : Except ε α → ε ⊕ α
  | .error e => .inl e
  | .ok a => .inr a

instance {ε α : Type} [DecidableEq ε] [DecidableEq α] :
    DecidableEq (Except ε α) := fun a b =>
  decidable_of_iff (exceptToSum a = exceptToSum b)
    (by cases a <;> cases b <;> simp [exceptToSum])

/-- The terminal outcome of one queued task: resolved, or rejected with a
caught-and-logged error. -/
inductive TaskOutcome
  | ok
  | failed (e : String)
  deriving DecidableEq, Repr

/-- A dispatch task: an identifying tag (its enqueue position from either
event source) and the result its closure produces when run. -/
structure QTask where
  id : Nat
  result : Except String Unit
  deriving DecidableEq, Repr

/-- The outcome of running one task: a rejection is caught, not rethrown. -/
def taskOutcome : Except String Unit → TaskOutcome
  | .ok _ => .ok
  | .error e => .failed e

/-- Scheduler state of the dispatch queue. -/
structure QueueState where
  pending : List QTask
  running : Option QTask
  trace : List (Nat × TaskOutcome)
  deriving DecidableEq, Repr

/-- One scheduler step: finish the in-flight task (recording its outcome;
a failure is logged, the queue moves on, the task is not re-enqueued), or
start the first pending task when idle. -/
def qstep : QueueState → QueueState
  | { pending := p, running := some t, trace := tr } =>
    { pending := p, running := none, trace := tr ++ [(t.id, taskOutcome t.result)] }
  | { pending := [], running := none, trace := tr } =>
    { pending := [], running := none, trace := tr }
  | { pending := t :: rest, running := none, trace := tr } =>
    { pending := rest, running := some t, trace := tr }

/-- Run the scheduler for a number of steps. -/
def runSteps : Nat → QueueState → QueueState
  | 0, q => q
  | n + 1, q => runSteps n (qstep q)

/-!
## Two concurrent `sendNotes` callers

A faithful interleaving machine for two concurrent `sendNotes` calls for
the same phone number (the spec's at-most-one-creation scenario).  All
remote requests are serialized one at a time by the client's queue with an
interval between tasks, and when an awaited request resolves the awaiting
continuation runs synchronously up to the next `await`; so one atomic step
of a caller is one remote call (or one poll of the lock) together with the
synchronous code that follows it.  The per-phone lock check-and-set is
therefore atomic with the conversation lookup that precedes it, and the
lock release is atomic with the completion of the conversation creation,
exactly as in the source.  Conversation creations succeed in this machine
(remote failures are the subject of the sequential model). -/

/-- Program counter of one `sendNotes` caller, one value per await-to-await
segment of the source. -/
inductive PC
  | start
  | createContactStep
  | getAttrsStep (uid : Nat)
  | setAttrSearch (uid : Nat)
  | setAttrPut (uid : Nat) (target : Option Nat)
  | lookupConv (uid : Nat)
  | createConv (uid : Nat)
  | waitLoop (uid : Nat)
  | relookup (uid : Nat)
  | post (uid : Nat) (cid : Option Nat)
  | done (res : Except CWError Bool)
  deriving DecidableEq, Repr

/-- One atomic step of one caller running
`sendNotes(phone, mensaje, typeUser, isPrivate, name)`: perform the remote
call at the current program counter and the synchronous continuation up to
the next await.  A finished caller stutters. -/
def callerStep (cfg : Config) (phone : String) (name : Option String)
    (mensaje typeUser : String) (isPrivate : Bool)
    (st : CWState) (pc : PC) : CWState × PC :=
  match pc with
  | .start =>
    match getUserID st phone with
    | some uid => (st, .lookupConv uid)
    | none => (st, .createContactStep)
  | .createContactStep =>
    let created := createContact st name phone
    (created.1, .getAttrsStep created.2)
  | .getAttrsStep uid =>
    match getAttributes st phone with
    | some _ => (st, .lookupConv uid)
    | none => (st, .setAttrSearch uid)
  | .setAttrSearch uid => (st, .setAttrPut uid (getUserID st phone))
  | .setAttrPut uid target =>
    match target with
    | none => (st, .done (.error .setAttributesNoUser))
    | some tid =>
      (setCustomAttribute st tid "funciones_del_bot" "On", .lookupConv uid)
  | .lookupConv uid =>
    match getConversationID cfg.inboxID st uid with
    | .error e => (st, .done (.error e))
    | .ok (some cid) => (st, .post uid (some cid))
    | .ok none =>
      if st.locks.contains phone then (st, .waitLoop uid)
      else ({ st with locks := phone :: st.locks }, .createConv uid)
  | .createConv uid =>
    let created := createNewConversation cfg st "someUniqueValue" uid
    ({ created.1 with
        locks := created.1.locks.filter (fun q => q ≠ phone) },
     .post uid (some created.2))
  | .waitLoop uid =>
    if st.locks.contains phone then (st, .waitLoop uid) else (st, .relookup uid)
  | .relookup uid =>
    match getConversationID cfg.inboxID st uid with
    | .error e => (st, .done (.error e))
    | .ok c => (st, .post uid c)
  | .post _ cid =>
    (postMessage st cid mensaje typeUser isPrivate, .done (.ok true))
  | .done r => (st, .done r)

/-- State of the two-caller system: the shared remote-and-lock state and
both callers' program counters. -/
structure SysState where
  shared : CWState
  pcA : PC
  pcB : PC
  deriving DecidableEq, Repr

/-- One system step: the scheduled caller (`false` = A, `true` = B) takes
one atomic step. -/
def sysStep (cfg : Config) (phone : String) (name : Option String)
    (mensaje typeUser : String) (isPrivate : Bool)
    (s : SysState) (b : Bool) : SysState :=
  if b then
    let r := callerStep cfg phone name mensaje typeUser isPrivate s.shared s.pcB
    { s with shared := r.1, pcB := r.2 }
  else
    let r := callerStep cfg phone name mensaje typeUser isPrivate s.shared s.pcA
    { s with shared := r.1, pcA := r.2 }

/-- Run the two-caller system under an explicit schedule. -/
def sysExec (cfg : Config) (phone : String) (name : Option String)
    (mensaje typeUser : String) (isPrivate : Bool)
    (sched : List Bool) (s : SysState) : SysState :=
  sched.foldl (sysStep cfg phone name mensaje typeUser isPrivate) s

/-- The empty initial remote state: a brand-new deployment, no contacts, no
conversations, lock map empty. -/
def emptyState : CWState :=
  { contacts := [], conversations := [], locks := []
    nextContactId := 0, nextConvId := 0, createCalls := [], posted := [] }

/-- Initial two-caller system state: both callers about to issue their
first lookup. -/
def sysInit : SysState :=
  { shared := emptyState, pcA := .start, pcB := .start }

/-- A caller is in the conversation-creation critical section. -/
def inCrit : PC → Bool
  | .createConv _ => true
  | _ => false

/-!
## Helper lemmas
-/

theorem createContact_locks (st : CWState) (n : Option String) (p : String) :
    (createContact st n p).1.locks = st.locks := rfl

theorem setCustomAttribute_locks (st : CWState) (uid : Nat) (f v : String) :
    (setCustomAttribute st uid f v).locks = st.locks := rfl

theorem createNewConversation_locks (cfg : Config) (st : CWState)
    (s : String) (uid : Nat) :
    (createNewConversation cfg st s uid).1.locks = st.locks := rfl

theorem postMessage_locks (st : CWState) (c : Option Nat) (m t : String)
    (p : Bool) : (postMessage st c m t p).locks = st.locks := rfl

theorem createContact_createCalls (st : CWState) (n : Option String)
    (p : String) : (createContact st n p).1.createCalls = st.createCalls := rfl

theorem setCustomAttribute_createCalls (st : CWState) (uid : Nat)
    (f v : String) :
    (setCustomAttribute st uid f v).createCalls = st.createCalls := rfl

theorem postMessage_createCalls (st : CWState) (c : Option Nat) (m t : String)
    (p : Bool) : (postMessage st c m t p).createCalls = st.createCalls := rfl

theorem postMessage_contacts (st : CWState) (c : Option Nat) (m t : String)
    (p : Bool) : (postMessage st c m t p).contacts = st.contacts := rfl

theorem createNewConversation_contacts (cfg : Config) (st : CWState)
    (s : String) (uid : Nat) :
    (createNewConversation cfg st s uid).1.contacts = st.contacts := rfl

theorem ensureContact_locks (st : CWState) (p : String) (n : Option String) :
    (ensureContact st p n).1.locks = st.locks := by
  unfold ensureContact
  cases getUserID st p with
  | some uid => rfl
  | none =>
    cases h : getAttributes (createContact st n p).1 p with
    | some v => simp only [h, createContact_locks]
    | none =>
      cases h2 : getUserID (createContact st n p).1 p with
      | none => simp only [h, h2, createContact_locks]
      | some tid =>
        simp only [h, h2, setCustomAttribute_locks, createContact_locks]

theorem ensureContact_createCalls (st : CWState) (p : String)
    (n : Option String) :
    (ensureContact st p n).1.createCalls = st.createCalls := by
  unfold ensureContact
  cases getUserID st p with
  | some uid => rfl
  | none =>
    cases h : getAttributes (createContact st n p).1 p with
    | some v => simp only [h, createContact_createCalls]
    | none =>
      cases h2 : getUserID (createContact st n p).1 p with
      | none => simp only [h, h2, createContact_createCalls]
      | some tid =>
        simp only [h, h2, setCustomAttribute_createCalls,
          createContact_createCalls]

/-!
## Claim theorems
-/

/-- The completed-task trace of the dispatch scheduler run to quiescence:
each pending task contributes exactly one outcome, in enqueue order. -/
theorem runSteps_trace (ts : List QTask) (tr : List (Nat × TaskOutcome)) :
    runSteps (2 * ts.length) { pending := ts, running := none, trace := tr } =
      { pending := [], running := none,
        trace := tr ++ ts.map (fun t => (t.id, taskOutcome t.result)) } := by
  induction ts generalizing tr with
  | nil => simp [runSteps]
  | cons t rest ih =>
    have h2 : 2 * (t :: rest).length = 2 * rest.length + 1 + 1 := by
      simp [List.length_cons]; ring
    rw [h2]
    show runSteps (2 * rest.length)
        (qstep (qstep { pending := t :: rest, running := none, trace := tr })) = _
    simp only [qstep, ih, List.map_cons, List.append_assoc, List.cons_append,
      List.nil_append]

/-- C4: tasks enqueued on the single-worker dispatch queue, from any mix of
event sources, execute one at a time (the scheduler's in-flight slot is a
single `Option`) and in exactly enqueue order: the completion trace of a
full run lists the task tags in the order they were enqueued, each task
finishing before the next one starts. -/
theorem c4_fifo_order (ts : List QTask) :
    (runSteps (2 * ts.length)
        { pending := ts, running := none, trace := [] }).trace.map Prod.fst =
      ts.map QTask.id := by
  simp [runSteps_trace]

/-- C5: a failing task is caught and recorded as `failed` in the trace, the
queue does not halt, no later task is skipped, and the failed task is not
retried: the trace of a run containing one failing task is exactly the
outcome list of the earlier tasks, the single `failed` entry, and the
outcome list of all later tasks. -/
theorem c5_failure_isolated (ts1 : List QTask) (i : Nat) (e : String)
    (ts2 : List QTask) :
    (runSteps (2 * (ts1 ++ { id := i, result := .error e } :: ts2).length)
        { pending := ts1 ++ { id := i, result := .error e } :: ts2,
          running := none, trace := [] }).trace =
      ts1.map (fun t => (t.id, taskOutcome t.result)) ++
        (i, .failed e) :: ts2.map (fun t => (t.id, taskOutcome t.result)) := by
  rw [runSteps_trace]
  simp [taskOutcome]

/-- C9: the webhook endpoint answers every JSON body with status 200 and
the fixed acknowledgement body, and the response does not depend on the
outcome of the downstream processing of the re-emitted agent event. -/
theorem c9_webhook_ack (events : List AgentEvent) (jsonBody : String)
    (d1 d2 : Except CWError Unit) :
    (webhookEndpointHandler events jsonBody d1).2 =
      { status := 200, body := "Evento del agente recibido." } ∧
    (webhookEndpointHandler events jsonBody d1).2 =
      (webhookEndpointHandler events jsonBody d2).2 :=
  ⟨rfl, rfl⟩

/-- A fixed client configuration for concrete runs: inbox id 1. -/
def cfg0 : Config := { inboxID := 1 }

/-- A remote state holding one contact whose `funciones_del_bot` attribute
is `"Off"`. -/
def stOffExample : CWState :=
  { emptyState with
      contacts := [{ id := 0, name := some "Ana", phone_number := "+100",
                     custom_attributes := [("funciones_del_bot", "Off")] }]
      nextContactId := 1 }

/-- A remote state holding one contact whose `funciones_del_bot` attribute
is `"On"`. -/
def stOnExample : CWState :=
  { emptyState with
      contacts := [{ id := 0, name := some "Ana", phone_number := "+100",
                     custom_attributes := [("funciones_del_bot", "On")] }]
      nextContactId := 1 }

/-- C1 fails on the code: with the remote attribute `"Off"` and an empty
blacklist, the outbound handler leaves the blacklist empty (the phone is
not added) and still issues the relay (here a plain note) — the source has
no `"Off"` branch, so the send is not suppressed. -/
theorem c1_counterexample :
    getAttributes stOffExample "100" = some "Off" ∧
    (processOutgoingMessage stOffExample [] "100" "hola" none).1.contains "100"
      = false ∧
    (processOutgoingMessage stOffExample [] "100" "hola" none).2 =
      .note "100" "hola" "outgoing" false := by
  decide

/-- C1 amended: the outbound handler evaluates the feature gate before the
relay, but only the `"On"` case is handled: when the attribute is `"On"`
and the phone is blacklisted it is removed and the relay proceeds; for any
other attribute value (including `"Off"`) the blacklist is unchanged and
the message is still relayed; in every case the relay call matching the
reply (attachment message when the context carries media, plain note
otherwise) is issued. -/
theorem c1_amended (st : CWState) (bl : List String) (phone answer : String)
    (media : Option String) :
    (getAttributes st phone ≠ some "On" →
      (processOutgoingMessage st bl phone answer media).1 = bl) ∧
    (getAttributes st phone = some "On" → phone ∈ bl →
      (processOutgoingMessage st bl phone answer media).1 =
        removeFromBlacklist bl phone) ∧
    (processOutgoingMessage st bl phone answer media).2 =
      (match media with
       | some url =>
         RelayAction.withAttachments phone (some answer) [url] "outgoing" false
       | none => RelayAction.note phone answer "outgoing" false) := by
  refine ⟨?_, ?_, ?_⟩
  · intro h
    cases media <;> simp [processOutgoingMessage, h]
  · intro h hmem
    cases media <;> simp [processOutgoingMessage, h, hmem]
  · cases media <;> rfl

/-- Witness for `c1_amended` at concrete inputs: an `"Off"` contact leaves
the blacklist unchanged, an `"On"` contact with a blacklisted phone has it
removed. -/
theorem c1_amended_witness :
    (processOutgoingMessage stOffExample [] "100" "hola" none).1 = [] ∧
    (processOutgoingMessage stOnExample ["100"] "100" "hola" none).1 =
      removeFromBlacklist ["100"] "100" :=
  ⟨(c1_amended stOffExample [] "100" "hola" none).1 (by decide),
   (c1_amended stOnExample ["100"] "100" "hola" none).2.1 (by decide)
     (by decide)⟩

theorem ensureContact_error (st : CWState) (p : String) (n : Option String)
    (st1 : CWState) (e : CWError)
    (h : ensureContact st p n = (st1, .error e)) : e = .setAttributesNoUser := by
  unfold ensureContact at h
  split at h
  · simp at h
  · dsimp only [] at h
    split at h
    · simp at h
    · split at h
      · simp at h
        exact h.2.symm
      · simp at h

theorem getConversationID_error (inbox : Nat) (st : CWState) (uid : Nat)
    (e : CWError) (h : getConversationID inbox st uid = .error e) :
    e = .noConversationForInbox inbox := by
  unfold getConversationID at h
  split at h
  · simp at h
  · split at h
    · simp at h
    · split at h
      · simp at h
        exact h.symm
      · simp at h

/-- C2 fails on the code: starting from an empty remote, a `sendNotes` call
whose conversation creation throws returns the error with the per-phone
lock still held (`locks = ["100"]`): the source clears the lock only after
a successful `await`, with no `try`/`finally`. -/
theorem c2_counterexample :
    (sendNotes cfg0 emptyState "100" "hola" "incoming" false (some "Ana")
        false).map (fun x => (x.1.locks, x.2)) =
      some (["100"], .error .createConversationFailed) := by
  decide

/-- C2 amended: the lock is released on the successful creation path, but
when conversation creation throws the lock remains held, and a subsequent
`sendNotes` call for the same phone that again finds no conversation
diverges in the polling loop (never returns). -/
theorem c2_amended (cfg : Config) (st : CWState) (phone mensaje typeUser : String)
    (isPrivate : Bool) (name : Option String) :
    (∀ st2 r, st.locks.contains phone = false →
      sendNotes cfg st phone mensaje typeUser isPrivate name true =
        some (st2, r) →
      st2.locks.contains phone = false) ∧
    (∀ st2, sendNotes cfg st phone mensaje typeUser isPrivate name false =
        some (st2, .error .createConversationFailed) →
      st2.locks.contains phone = true) ∧
    (∀ uid createOk, st.locks.contains phone = true →
      getUserID st phone = some uid →
      getConversationID cfg.inboxID st uid = .ok none →
      sendNotes cfg st phone mensaje typeUser isPrivate name createOk =
        none) := by
  refine ⟨?_, ?_, ?_⟩
  · intro st2 r hlock hrun
    unfold sendNotes at hrun
    split at hrun
    · rename_i st1 e heq
      have h1 : st1.locks = st.locks := by
        have h := ensureContact_locks st phone name
        rw [heq] at h; exact h
      simp only [Option.some.injEq, Prod.mk.injEq] at hrun
      rw [← hrun.1, h1]; exact hlock
    · rename_i st1 uid heq
      have h1 : st1.locks = st.locks := by
        have h := ensureContact_locks st phone name
        rw [heq] at h; exact h
      split at hrun
      · simp only [Option.some.injEq, Prod.mk.injEq] at hrun
        rw [← hrun.1, h1]; exact hlock
      · simp only [Option.some.injEq, Prod.mk.injEq] at hrun
        rw [← hrun.1, postMessage_locks, h1]; exact hlock
      · split at hrun
        · simp at hrun
        · dsimp only [] at hrun
          split at hrun
          · simp only [Option.some.injEq, Prod.mk.injEq] at hrun
            rw [← hrun.1, postMessage_locks]
            simp [createNewConversation_locks]
          · rename_i h3; exact absurd rfl h3
  · intro st2 hrun
    unfold sendNotes at hrun
    split at hrun
    · rename_i st1 e heq
      have he := ensureContact_error st phone name st1 e heq
      simp only [Option.some.injEq, Prod.mk.injEq] at hrun
      rw [he] at hrun
      exact absurd hrun.2 (by simp)
    · rename_i st1 uid heq
      split at hrun
      · rename_i e hcv
        have he := getConversationID_error cfg.inboxID st1 uid e hcv
        simp only [Option.some.injEq, Prod.mk.injEq] at hrun
        rw [he] at hrun
        exact absurd hrun.2 (by simp)
      · simp at hrun
      · split at hrun
        · simp at hrun
        · dsimp only [] at hrun
          split at hrun
          · simp at hrun
          · simp only [Option.some.injEq, Prod.mk.injEq] at hrun
            rw [← hrun.1]
            simp
  · intro uid createOk hlock huser hconv
    have hmem : phone ∈ st.locks := by simpa using hlock
    unfold sendNotes ensureContact
    simp [huser, hconv, hmem]

/-- The state a successful first `sendNotes` run for phone `"100"` leaves
behind (contact created, attribute `"On"`, one conversation, lock clear). -/
def sentOnceState : CWState :=
  { contacts := [{ id := 0, name := some "Ana", phone_number := "+100",
                   custom_attributes := [("funciones_del_bot", "On")] }]
    conversations :=
      [(0, [{ messages := [{ inbox_id := 1, conversation_id := 0 }] }])]
    locks := [], nextContactId := 1, nextConvId := 1
    createCalls := [("someUniqueValue", 0)]
    posted := [(some 0, "hola", "incoming", false)] }

/-- The state a `sendNotes` run whose conversation creation threw leaves
behind: contact created, no conversation, the per-phone lock still held. -/
def stuckLockState : CWState :=
  { contacts := [{ id := 0, name := some "Ana", phone_number := "+100",
                   custom_attributes := [("funciones_del_bot", "On")] }]
    conversations := [], locks := ["100"], nextContactId := 1, nextConvId := 0
    createCalls := [], posted := [] }

/-- Witness for `c2_amended`: the successful run from the empty state ends
with the lock clear; the failed run ends with it held, and the follow-up
call on that stuck state diverges. -/
theorem c2_amended_witness :
    sentOnceState.locks.contains "100" = false ∧
    stuckLockState.locks.contains "100" = true ∧
    sendNotes cfg0 stuckLockState "100" "hola" "incoming" false (some "Ana")
      true = none :=
  ⟨(c2_amended cfg0 emptyState "100" "hola" "incoming" false (some "Ana")).1
      sentOnceState (.ok true) (by decide) (by decide),
   (c2_amended cfg0 emptyState "100" "hola" "incoming" false (some "Ana")).2.1
      stuckLockState (by decide),
   (c2_amended cfg0 stuckLockState "100" "hola" "incoming" false
      (some "Ana")).2.2 0 true (by decide) (by decide) (by decide)⟩

theorem createNewConversation_createCalls (cfg : Config) (st : CWState)
    (s : String) (uid : Nat) :
    (createNewConversation cfg st s uid).1.createCalls =
      st.createCalls ++ [(s, uid)] := rfl

/-- C7 fails on the code: two successive `sendNotes` runs from the empty
state, for two different never-seen phones, are two distinct
conversation-creation attempts, and both log the same source id — the
constant `"someUniqueValue"` of the source. -/
theorem c7_counterexample :
    ((sendNotes cfg0 emptyState "100" "hola" "incoming" false (some "Ana")
        true).bind (fun x =>
      sendNotes cfg0 x.1 "200" "hola" "incoming" false (some "Beto")
        true)).map (fun x => x.1.createCalls.map Prod.fst) =
      some ["someUniqueValue", "someUniqueValue"] := by
  decide

/-- C7 amended: the source id sent to the remote conversation-create call
is not unique per creation attempt; it is the fixed constant
`"someUniqueValue"`, so every creation call a `sendNotes` run adds to the
log carries that same source id (and two distinct attempts therefore share
it). -/
theorem c7_amended (cfg : Config) (st : CWState)
    (phone mensaje typeUser : String) (isPrivate : Bool)
    (name : Option String) (createOk : Bool) (st2 : CWState)
    (r : Except CWError Bool) (c : String × Nat)
    (hrun : sendNotes cfg st phone mensaje typeUser isPrivate name createOk =
      some (st2, r))
    (hc : c ∈ st2.createCalls) :
    c ∈ st.createCalls ∨ c.1 = "someUniqueValue" := by
  unfold sendNotes at hrun
  split at hrun
  · rename_i st1 e heq
    have h1 : st1.createCalls = st.createCalls := by
      have h := ensureContact_createCalls st phone name
      rw [heq] at h; exact h
    simp only [Option.some.injEq, Prod.mk.injEq] at hrun
    rw [← hrun.1, h1] at hc
    exact Or.inl hc
  · rename_i st1 uid heq
    have h1 : st1.createCalls = st.createCalls := by
      have h := ensureContact_createCalls st phone name
      rw [heq] at h; exact h
    split at hrun
    · simp only [Option.some.injEq, Prod.mk.injEq] at hrun
      rw [← hrun.1, h1] at hc
      exact Or.inl hc
    · simp only [Option.some.injEq, Prod.mk.injEq] at hrun
      rw [← hrun.1, postMessage_createCalls, h1] at hc
      exact Or.inl hc
    · split at hrun
      · simp at hrun
      · dsimp only [] at hrun
        split at hrun
        · simp only [Option.some.injEq, Prod.mk.injEq] at hrun
          rw [← hrun.1, postMessage_createCalls,
            createNewConversation_createCalls] at hc
          rcases List.mem_append.mp hc with hin | hnew
          · rw [h1] at hin; exact Or.inl hin
          · right
            have : c = ("someUniqueValue", uid) := by simpa using hnew
            rw [this]
        · simp only [Option.some.injEq, Prod.mk.injEq] at hrun
          rw [← hrun.1, h1] at hc
          exact Or.inl hc

/-- Witness for `c7_amended`: the creation logged by the successful run
from the empty state carries the constant source id. -/
theorem c7_amended_witness :
    ("someUniqueValue", 0) ∈ emptyState.createCalls ∨
      (("someUniqueValue", 0) : String × Nat).1 = "someUniqueValue" :=
  c7_amended cfg0 emptyState "100" "hola" "incoming" false (some "Ana") true
    sentOnceState (.ok true) ("someUniqueValue", 0) (by decide) (by decide)

/-- C10: when the first entry of a user's conversation payload is missing
or has no messages, `getConversationID` returns `false`; but when the first
entry's messages are non-empty and none carries the configured inbox id, it
throws, and `sendNotes` then propagates that error instead of entering the
conversation-creation path (the state, in particular the lock map and the
creation log, is returned unchanged). -/
theorem c10_conversation_lookup (cfg : Config) (st : CWState)
    (phone mensaje typeUser : String) (isPrivate createOk : Bool)
    (name : Option String) (uid : Nat) (msgs : List MsgRec)
    (huser : getUserID st phone = some uid)
    (hhead : (convPayload st uid).head? = some { messages := msgs })
    (hne : msgs ≠ [])
    (hnomatch : ∀ m ∈ msgs, m.inbox_id ≠ cfg.inboxID) :
    (∀ u, (convPayload st u).head? = none →
      getConversationID cfg.inboxID st u = .ok none) ∧
    (∀ u, (convPayload st u).head? = some { messages := [] } →
      getConversationID cfg.inboxID st u = .ok none) ∧
    getConversationID cfg.inboxID st uid =
      .error (.noConversationForInbox cfg.inboxID) ∧
    sendNotes cfg st phone mensaje typeUser isPrivate name createOk =
      some (st, .error (.noConversationForInbox cfg.inboxID)) := by
  have hgc : getConversationID cfg.inboxID st uid =
      .error (.noConversationForInbox cfg.inboxID) := by
    unfold getConversationID
    rw [hhead]
    cases msgs with
    | nil => exact absurd rfl hne
    | cons m ms =>
      have hf : (m :: ms).find? (fun c => c.inbox_id == cfg.inboxID) = none :=
        List.find?_eq_none.mpr (fun x hx => by simp [hnomatch x hx])
      simp [hf]
  refine ⟨?_, ?_, hgc, ?_⟩
  · intro u hu
    unfold getConversationID
    rw [hu]
  · intro u hu
    unfold getConversationID
    rw [hu]
  · unfold sendNotes ensureContact
    simp [huser, hgc]

/-- A remote state whose single contact has one conversation entry whose
messages all carry a different inbox id than the configured one. -/
def wrongInboxState : CWState :=
  { emptyState with
      contacts := [{ id := 0, name := some "Ana", phone_number := "+100",
                     custom_attributes := [] }]
      conversations :=
        [(0, [{ messages := [{ inbox_id := 5, conversation_id := 7 }] }])]
      nextContactId := 1 }

/-- Witness for `c10_conversation_lookup`: a user with no payload gets
`false`, the mismatched-inbox user gets the error, and `sendNotes`
propagates it with the state unchanged. -/
theorem c10_witness :
    getConversationID cfg0.inboxID wrongInboxState 99 = .ok none ∧
    getConversationID cfg0.inboxID wrongInboxState 0 =
      .error (.noConversationForInbox cfg0.inboxID) ∧
    sendNotes cfg0 wrongInboxState "100" "hola" "incoming" false none true =
      some (wrongInboxState, .error (.noConversationForInbox cfg0.inboxID)) := by
  have h := c10_conversation_lookup cfg0 wrongInboxState "100" "hola"
    "incoming" false true none 0
    [{ inbox_id := 5, conversation_id := 7 }]
    (by decide) (by decide) (by decide) (by decide)
  exact ⟨h.1 99 (by decide), h.2.2.1, h.2.2.2⟩

theorem attachLoop_spec (download : String → String)
    (mimeExt : String → Option String) (urls : List String)
    (a b : List String) :
    urls.foldl
      (fun (acc : List String × List String) (url : String) =>
        match mimeExt (download url) with
        | some ext => (acc.1 ++ ["Documento." ++ ext], acc.2)
        | none => (acc.1, acc.2 ++ [url])) (a, b) =
    (a ++ urls.filterMap
        (fun u => (mimeExt (download u)).map (fun e => "Documento." ++ e)),
     b ++ urls.filter (fun u => (mimeExt (download u)).isNone)) := by
  induction urls generalizing a b with
  | nil => simp
  | cons u rest ih =>
    cases hm : mimeExt (download u) with
    | some ext => simp [List.foldl_cons, hm, ih, List.filterMap_cons,
        List.filter_cons]
    | none => simp [List.foldl_cons, hm, ih, List.filterMap_cons,
        List.filter_cons]

/-- C8: for a relay whose contact and conversation resolve, every file URL
whose downloaded content type yields no recognizable extension is skipped
individually (collected in the warnings, one logged line each), the
message is still posted, and its attachments are exactly the files whose
extension resolved — one unresolvable file does not fail the whole relay. -/
theorem c8_attachment_partial (cfg : Config) (st : CWState)
    (download : String → String) (mimeExt : String → Option String)
    (phone : String) (mensaje : Option String) (urls : List String)
    (typeUser : String) (isPrivate : Bool) (uid cid : Nat)
    (huser : getUserID st phone = some uid)
    (hconv : getConversationID cfg.inboxID st uid = .ok (some cid)) :
    sendMessageWithAttachments cfg st download mimeExt phone mensaje urls
        typeUser isPrivate =
      .ok (postMessage st (some cid) (mensaje.getD "") typeUser isPrivate,
        { attachments := urls.filterMap
            (fun u => (mimeExt (download u)).map (fun e => "Documento." ++ e))
          warnings := urls.filter (fun u => (mimeExt (download u)).isNone)
          sent := true }) := by
  unfold sendMessageWithAttachments
  simp only [huser, hconv]
  rw [attachLoop_spec]
  simp

/-- Witness for `c8_attachment_partial`: two URLs, one resolvable
(`image/png` → `png`) and one with an unrecognized content type; the
message is sent with the single resolvable attachment and the other URL is
warned about. -/
theorem c8_witness :
    sendMessageWithAttachments cfg0 sentOnceState
        (fun u => if u = "http://a" then "image/png" else "application/x-unknown")
        (fun ct => if ct = "image/png" then some "png" else none)
        "100" (some "hola") ["http://a", "http://b"] "incoming" false =
      .ok (postMessage sentOnceState (some 0) "hola" "incoming" false,
        { attachments := ["Documento.png"], warnings := ["http://b"]
          sent := true }) := by
  have h := c8_attachment_partial cfg0 sentOnceState
    (fun u => if u = "http://a" then "image/png" else "application/x-unknown")
    (fun ct => if ct = "image/png" then some "png" else none)
    "100" (some "hola") ["http://a", "http://b"] "incoming" false 0 0
    (by decide) (by decide)
  rw [h]
  decide

theorem sendNotes_contacts (cfg : Config) (st : CWState)
    (phone mensaje typeUser : String) (isPrivate : Bool)
    (name : Option String) (createOk : Bool) (st2 : CWState)
    (r : Except CWError Bool)
    (hrun : sendNotes cfg st phone mensaje typeUser isPrivate name createOk =
      some (st2, r)) :
    st2.contacts = (ensureContact st phone name).1.contacts := by
  unfold sendNotes at hrun
  split at hrun
  · rename_i st1 e heq
    simp only [Option.some.injEq, Prod.mk.injEq] at hrun
    rw [← hrun.1, heq]
  · rename_i st1 uid heq
    split at hrun
    · simp only [Option.some.injEq, Prod.mk.injEq] at hrun
      rw [← hrun.1, heq]
    · simp only [Option.some.injEq, Prod.mk.injEq] at hrun
      rw [← hrun.1, postMessage_contacts, heq]
    · split at hrun
      · simp at hrun
      · dsimp only [] at hrun
        split at hrun
        · simp only [Option.some.injEq, Prod.mk.injEq] at hrun
          rw [← hrun.1, postMessage_contacts, heq]
          simp [createNewConversation_contacts]
        · simp only [Option.some.injEq, Prod.mk.injEq] at hrun
          rw [← hrun.1, heq]

/-- C6: a `sendNotes` call whose phone (a plain number, not already
`+`-prefixed) has no existing remote contact creates the contact with the
given display name and, the fresh contact's attribute map being empty,
initializes `funciones_del_bot` to `"On"`: whenever the call returns, the
final remote state contains the contact with that name, the formatted
phone, and the attribute set to `"On"`. -/
theorem c6_contact_creation (cfg : Config) (st : CWState)
    (phone mensaje typeUser : String) (isPrivate createOk : Bool)
    (name : Option String) (stF : CWState) (r : Except CWError Bool)
    (hplus : phone.data.head? ≠ some '+')
    (habsent : getUserID st phone = none)
    (hrun : sendNotes cfg st phone mensaje typeUser isPrivate name createOk =
      some (stF, r)) :
    ({ id := st.nextContactId, name := name, phone_number := "+" ++ phone,
       custom_attributes := [("funciones_del_bot", "On")] } : Contact)
      ∈ stF.contacts := by
  have hformat : formatPhone phone = "+" ++ phone := by
    unfold formatPhone; rw [if_neg hplus]
  have hsearch0 : searchContact st phone = none := by
    unfold getUserID at habsent
    cases h : searchContact st phone with
    | none => rfl
    | some c => rw [h] at habsent; simp at habsent
  have hfind0 : st.contacts.find?
      (fun c => c.phone_number == "+" ++ phone) = none := hsearch0
  have hsA : searchContact (createContact st name phone).1 phone =
      some { id := st.nextContactId, name := name,
             phone_number := "+" ++ phone, custom_attributes := [] } := by
    unfold searchContact createContact
    dsimp only []
    rw [hformat, List.find?_append, hfind0]
    simp
  have hgA : getAttributes (createContact st name phone).1 phone = none := by
    unfold getAttributes
    rw [hsA]
    rfl
  have hgU : getUserID (createContact st name phone).1 phone =
      some st.nextContactId := by
    unfold getUserID
    rw [hsA]
    rfl
  have hmem : ({ id := st.nextContactId, name := name,
                 phone_number := "+" ++ phone,
                 custom_attributes := [("funciones_del_bot", "On")] } : Contact)
      ∈ (ensureContact st phone name).1.contacts := by
    unfold ensureContact
    simp only [habsent, hgA, hgU]
    unfold setCustomAttribute createContact
    dsimp only []
    rw [hformat]
    apply List.mem_map.mpr
    refine ⟨({ id := st.nextContactId, name := name,
               phone_number := "+" ++ phone,
               custom_attributes := [] } : Contact), ?_, ?_⟩
    · simp
    · simp
  rw [sendNotes_contacts cfg st phone mensaje typeUser isPrivate name createOk
    stF r hrun]
  exact hmem

/-- Witness for `c6_contact_creation`: the successful run from the empty
remote leaves the contact `"Ana"` for phone `"100"` with the attribute set
to `"On"`. -/
theorem c6_witness :
    ({ id := 0, name := some "Ana", phone_number := "+100",
       custom_attributes := [("funciones_del_bot", "On")] } : Contact)
      ∈ sentOnceState.contacts :=
  c6_contact_creation cfg0 emptyState "100" "hola" "incoming" false true
    (some "Ana") sentOnceState (.ok true) (by decide) (by decide) (by decide)

/-- C3 fails on the code: for the never-before-seen phone `"100000001"`,
two concurrent `sendNotes` callers under the schedule below (`false` = A,
`true` = B) both find no contact, both create one, and then each creates a
conversation for its own contact — the second caller checks the lock only
after the first has already released it — so the remote receives two
conversation-creation calls (and the callers post to different
conversation ids), not exactly one. -/
theorem c3_counterexample :
    ((sysExec cfg0 "100000001" (some "Alice") "hola" "outgoing" false
        [false, true, false, true, false, false, false, true, false, false,
         true, true] sysInit).shared.createCalls).length = 2 := by
  decide

/-- The lock invariant of the two-caller system: the per-phone lock is held
exactly when one of the callers is in the conversation-creation critical
section, and never are both in it. -/
def LockInv (phone : String) (s : SysState) : Prop :=
  (s.shared.locks.contains phone = true ↔
    (inCrit s.pcA = true ∨ inCrit s.pcB = true)) ∧
  (inCrit s.pcA && inCrit s.pcB) = false

theorem callerStep_lockInv (cfg : Config) (phone : String)
    (name : Option String) (mensaje typeUser : String) (isPrivate : Bool)
    (st : CWState) (pcSelf pcOther : PC)
    (h1 : st.locks.contains phone = true ↔
      (inCrit pcSelf = true ∨ inCrit pcOther = true))
    (h2 : (inCrit pcSelf && inCrit pcOther) = false) :
    ((callerStep cfg phone name mensaje typeUser isPrivate st
        pcSelf).1.locks.contains phone = true ↔
      (inCrit (callerStep cfg phone name mensaje typeUser isPrivate st
        pcSelf).2 = true ∨ inCrit pcOther = true)) ∧
    (inCrit (callerStep cfg phone name mensaje typeUser isPrivate st
        pcSelf).2 && inCrit pcOther) = false := by
  cases pcSelf with
  | start =>
    dsimp only [callerStep]
    cases hgu : getUserID st phone <;> simp_all [inCrit]
  | createContactStep =>
    dsimp only [callerStep]
    simp_all [inCrit, createContact_locks]
  | getAttrsStep uid =>
    dsimp only [callerStep]
    cases hga : getAttributes st phone <;> simp_all [inCrit]
  | setAttrSearch uid =>
    dsimp only [callerStep]
    simp_all [inCrit]
  | setAttrPut uid target =>
    dsimp only [callerStep]
    cases target <;> simp_all [inCrit, setCustomAttribute_locks]
  | lookupConv uid =>
    dsimp only [callerStep]
    cases hcv : getConversationID cfg.inboxID st uid with
    | error e => simp_all [inCrit]
    | ok c =>
      cases c with
      | some cid => simp_all [inCrit]
      | none =>
        cases hl : st.locks.contains phone with
        | true => simp_all [inCrit]
        | false => simp_all [inCrit]
  | createConv uid =>
    dsimp only [callerStep]
    simp_all [inCrit, createNewConversation_locks]
  | waitLoop uid =>
    dsimp only [callerStep]
    cases hl : st.locks.contains phone with
    | true => simp_all [inCrit]
    | false => simp_all [inCrit]
  | relookup uid =>
    dsimp only [callerStep]
    cases hcv : getConversationID cfg.inboxID st uid with
    | error e => simp_all [inCrit]
    | ok c => simp_all [inCrit]
  | post uid cid =>
    dsimp only [callerStep]
    simp_all [inCrit, postMessage_locks]
  | done r =>
    dsimp only [callerStep]
    simp_all [inCrit]

theorem sysStep_lockInv (cfg : Config) (phone : String) (name : Option String)
    (mensaje typeUser : String) (isPrivate : Bool) (s : SysState) (b : Bool)
    (h : LockInv phone s) :
    LockInv phone (sysStep cfg phone name mensaje typeUser isPrivate s b) := by
  cases b with
  | false =>
    have hc := callerStep_lockInv cfg phone name mensaje typeUser isPrivate
      s.shared s.pcA s.pcB h.1 h.2
    exact ⟨hc.1, hc.2⟩
  | true =>
    have h1 : s.shared.locks.contains phone = true ↔
        (inCrit s.pcB = true ∨ inCrit s.pcA = true) := h.1.trans or_comm
    have h2 : (inCrit s.pcB && inCrit s.pcA) = false := by
      rw [Bool.and_comm]; exact h.2
    have hc := callerStep_lockInv cfg phone name mensaje typeUser isPrivate
      s.shared s.pcB s.pcA h1 h2
    exact ⟨hc.1.trans or_comm, by rw [Bool.and_comm]; exact hc.2⟩

theorem sysExec_lockInv (cfg : Config) (phone : String) (name : Option String)
    (mensaje typeUser : String) (isPrivate : Bool) (sched : List Bool)
    (s : SysState) (h : LockInv phone s) :
    LockInv phone (sysExec cfg phone name mensaje typeUser isPrivate sched s) := by
  induction sched generalizing s with
  | nil => exact h
  | cons b rest ih =>
    exact ih _ (sysStep_lockInv cfg phone name mensaje typeUser isPrivate s b h)

/-- C3 amended: for a never-before-seen phone, two concurrent resolve
callers can each create a contact and then each create a conversation (see
the counterexample), so neither "exactly one creation call" nor "all
callers return the same conversation id" holds; what the per-phone lock
does guarantee is mutual exclusion of the creation section: under every
schedule, at no point are both callers in the conversation-creation
critical section. -/
theorem c3_amended (cfg : Config) (phone : String) (name : Option String)
    (mensaje typeUser : String) (isPrivate : Bool) (sched : List Bool) :
    (inCrit (sysExec cfg phone name mensaje typeUser isPrivate sched
        sysInit).pcA &&
      inCrit (sysExec cfg phone name mensaje typeUser isPrivate sched
        sysInit).pcB) = false :=
  (sysExec_lockInv cfg phone name mensaje typeUser isPrivate sched sysInit
    ⟨by simp [sysInit, emptyState, inCrit], by simp [sysInit, inCrit]⟩).2
